import Mathlib

/-!
Verification of the sejmofil-neo4j-mcp query layer.

This file shallowly embeds the data model and the query/ranking logic of
`src/sejmofil_mcp` (queries.py, embeddings.py, server.py, config.py) and
proves or refutes the specified properties.  The external Neo4j store is
modelled abstractly: its fulltext and vector index primitives are fields of
a `Store` record, and its Cypher `ORDER BY` semantics are modelled both by
an executable sort (for concrete evaluation) and by a relation describing
every ordering the store may legally return (ties carry no guarantee).

Conventions for Cypher semantics used throughout:
* `null` properties are modelled by `Option`; in `ORDER BY ... DESC` Neo4j
  places `null` before every value (null is larger than any value), which we
  model by mapping `Option Nat` into `WithTop Nat` with `none` going to the top.
* `x IN [..]` evaluates to `null` (falsy in `WHERE` and `CASE`) when `x` is
  `null`.
-/

namespace Sejmofil

/-- Neo4j sort key of a possibly-null numeric property: `null` is larger than
any value, so under `DESC` nulls come first.  Dates and ordinals are both
modelled as natural numbers. -/
def dateKey : Option Nat → WithTop Nat
  | none => ⊤
  | some n => (n : WithTop Nat)

section LexRel

variable {α : Type} {β γ : Type*} [LinearOrder β] [LinearOrder γ]

/-- Two-level lexicographic "may come no later than" relation induced by a
primary and a secondary sort key.  `ORDER BY`-style orderings in the code are
instances of this with suitably dualised keys. -/
def lexLe (f : α → β) (g : α → γ) (a b : α) : Prop :=
  f a < f b ∨ (f a = f b ∧ g a ≤ g b)

instance lexLeIsTotal (f : α → β) (g : α → γ) : IsTotal α (lexLe f g) :=
  ⟨by
    intro a b
    rcases lt_trichotomy (f a) (f b) with h | h | h
    · exact Or.inl (Or.inl h)
    · rcases le_total (g a) (g b) with h2 | h2
      · exact Or.inl (Or.inr ⟨h, h2⟩)
      · exact Or.inr (Or.inr ⟨h.symm, h2⟩)
    · exact Or.inr (Or.inl h)⟩

instance lexLeIsTrans (f : α → β) (g : α → γ) : IsTrans α (lexLe f g) :=
  ⟨by
    intro a b c hab hbc
    rcases hab with h1 | ⟨h1, h1'⟩
    · rcases hbc with h2 | ⟨h2, _⟩
      · exact Or.inl (h1.trans h2)
      · exact Or.inl (h2 ▸ h1)
    · rcases hbc with h2 | ⟨h2, h2'⟩
      · exact Or.inl (h1 ▸ h2)
      · exact Or.inr ⟨h1.trans h2, h1'.trans h2'⟩⟩

instance lexLeDecidable (f : α → β) (g : α → γ) : DecidableRel (lexLe f g) :=
  fun _ _ => inferInstanceAs (Decidable (_ ∨ _ ∧ _))

end LexRel

/-! ## Stage data model and the status classifier

Embeds `ProcessStage` (models.py) and the status-classification Cypher used
in `get_process_status` (queries.py lines 375-401):

```
OPTIONAL MATCH (process)-[:HAS]->(stage:Stage)
WITH process, stage ORDER BY stage.date DESC, stage.number DESC
WITH process, COLLECT(stage) as allStages, COLLECT(stage)[0] as latestStage
CASE WHEN latestStage IS NULL THEN 'unknown'
     WHEN latestStage.type IN ['PUBLICATION', 'WITHDRAWAL'] THEN 'finished'
     ELSE 'active' END as status
```
-/

/-- A stage event of a legislative process.  `date` and `number` (the
ordinal) may be `null` in the store; `type` is the categorical tag. -/
structure Stage where
  stageName : String
  date : Option Nat
  number : Option Nat
  type : Option String
  deriving DecidableEq, Repr

/-- Ordering used by `ORDER BY stage.date DESC, stage.number DESC`:
`stageLe a b` states that `a` may be listed no later than `b`, i.e. `a` is at
least as recent as `b` under the composite (date, ordinal) key with Neo4j
null handling. -/
def stageLe (a b : Stage) : Prop :=
  lexLe (fun s => OrderDual.toDual (dateKey s.date))
    (fun s => OrderDual.toDual (dateKey s.number)) a b

instance : DecidableRel stageLe := fun a b => by
  unfold stageLe; exact lexLeDecidable _ _ a b

instance : IsTotal Stage stageLe := lexLeIsTotal _ _

instance : IsTrans Stage stageLe := lexLeIsTrans _ _

/-- The stage list as collected by the Cypher `COLLECT(stage)` after
`ORDER BY stage.date DESC, stage.number DESC`. -/
def sortStages (l : List Stage) : List Stage := List.insertionSort stageLe l

/-- `COLLECT(stage)[0]`: the first stage after sorting, `null` if there are
no stages. -/
def latestStage (l : List Stage) : Option Stage := (sortStages l).head?

/-- The fixed terminal-type set used by every status check in queries.py. -/
def terminalStageTypes : List String := ["PUBLICATION", "WITHDRAWAL"]

/-- Cypher `latestStage.type IN ['PUBLICATION', 'WITHDRAWAL']` for a known
stage: a `null` type makes the membership test `null`, which is falsy. -/
def stageIsTerminal (s : Stage) : Bool :=
  match s.type with
  | some t => terminalStageTypes.contains t
  | none => false

/-- The CASE expression computing the status string. -/
def classifyStatus (l : List Stage) : String :=
  match latestStage l with
  | none => "unknown"
  | some s => if stageIsTerminal s then "finished" else "active"

/-- Result shape of `get_process_status` (`ProcessStatus` in models.py). -/
structure ProcessStatusModel where
  processNumber : String
  status : String
  currentStage : Option String
  stageDate : Option Nat
  allStages : List Stage
  deriving DecidableEq, Repr

/-- Embeds `QueryService.get_process_status` (queries.py lines 365-408).  The
store's process table is an association list from process number to the
process's stage set; a missing process number models the empty Cypher match,
for which the Python function returns `None`. -/
def get_process_status (db : List (String × List Stage)) (pn : String) :
    Option ProcessStatusModel :=
  match db.lookup pn with
  | none => none
  | some stages =>
    some { processNumber := pn
           status := classifyStatus stages
           currentStage := (latestStage stages).map Stage.stageName
           stageDate := (latestStage stages).bind Stage.date
           allStages := sortStages stages }

/-- Spec-side phrasing of "stage `s` is at least as recent as stage `t` by
(date descending, ordinal descending)". -/
def stageAtLeastAsRecent (s t : Stage) : Prop :=
  dateKey t.date < dateKey s.date ∨
    (dateKey s.date = dateKey t.date ∧ dateKey t.number ≤ dateKey s.number)

/-! ## Print data model, the store, and the search pipeline

Embeds `search_prints_by_query` and `_search_prints_fulltext`
(queries.py lines 18-157) together with the embeddings service
(embeddings.py).  The external store's two retrieval primitives are
abstracted as functions of the query: the vector primitive stands for
`db.index.vector.queryNodes('printEmbeddingIndex', $limit * 2, $embedding)`
(the embedding being a function of the query text), and the fulltext
primitive for `db.index.fulltext.queryNodes("print_content", $query)`.
Per Neo4j semantics both primitives return a relevance score where a higher
score means a more relevant (more similar) candidate. -/

/-- A document node ("Print").  `process` holds the stage set of the at most
one process the print is a source of (`IS_SOURCE_OF`), `none` when there is
no linked process. -/
structure Print where
  number : String
  title : String
  summary : Option String
  documentDate : Option Nat
  processPrint : List String
  topics : List String
  process : Option (List Stage)
  deriving DecidableEq, Repr

/-- The external graph store: responses of the two index primitives, as
pairs of a print and its store-native relevance score (higher = better for
both Lucene fulltext scores and Neo4j vector similarity scores). -/
structure Store where
  vectorSearch : String → Nat → List (Print × ℚ)
  fulltextSearch : String → List (Print × ℚ)

/-- Python-level failures that the embedded code can raise or report. -/
inductive PyError where
  | attributeError (name : String)
  | runtimeError (msg : String)
  | embeddingApiError
  | systemExit
  deriving DecidableEq, Repr

/-- State of `EmbeddingsService` (embeddings.py): whether the OpenAI client
was initialised (OPENAI_API_KEY set) and whether the embeddings API call
would raise. -/
structure EmbeddingsState where
  clientInitialized : Bool
  apiCallFails : Bool
  deriving DecidableEq, Repr

/-- `EmbeddingsService.is_available` (embeddings.py lines 46-48). -/
def is_available (e : EmbeddingsState) : Bool := e.clientInitialized

/-- `EmbeddingsService.generate_embedding` (embeddings.py lines 20-44): a
missing client raises RuntimeError; a failing API call is logged and then
re-raised.  The embedding vector itself is abstracted away (the store's
vector primitive consumes the query text directly). -/
def generate_embedding (e : EmbeddingsState) (_text : String) :
    Except PyError Unit :=
  if e.clientInitialized = false then
    .error (.runtimeError "OpenAI client not initialized")
  else if e.apiCallFails then .error .embeddingApiError
  else .ok ()

/-- A row of the search RETURN clause (`PrintShort` in models.py). -/
structure ResultRow where
  number : String
  title : String
  summary : Option String
  documentDate : Option Nat
  currentStage : Option String
  stageDate : Option Nat
  topics : List String
  score : ℚ
  deriving DecidableEq, Repr

/-- Latest stage of the process a print is a source of; `null` when there is
no process or no stages. -/
def printLatestStage (p : Print) : Option Stage :=
  match p.process with
  | none => none
  | some stages => latestStage stages

/-- The base WHERE clause of both search paths:
`print.summary IS NOT NULL AND print.number IN print.processPrint`. -/
def baseFilter (p : Print) : Bool :=
  p.summary.isSome && p.processPrint.contains p.number

/-- WHERE clause appended for `status_filter == 'active'`:
`process IS NULL OR latestStage IS NULL OR latestStage.type IS NULL OR
NOT (latestStage.type IN ['PUBLICATION', 'WITHDRAWAL'])`. -/
def passesActiveFilter (p : Print) : Bool :=
  match p.process with
  | none => true
  | some stages =>
    match latestStage stages with
    | none => true
    | some s =>
      match s.type with
      | none => true
      | some t => !(terminalStageTypes.contains t)

/-- WHERE clause appended for `status_filter == 'finished'`:
`latestStage.type IN ['PUBLICATION', 'WITHDRAWAL']`; with a null latest
stage or type the test is null, hence falsy. -/
def passesFinishedFilter (p : Print) : Bool :=
  match p.process with
  | none => false
  | some stages =>
    match latestStage stages with
    | none => false
    | some s =>
      match s.type with
      | none => false
      | some t => terminalStageTypes.contains t

/-- Status-filter clause selection (queries.py lines 60-71 and 122-133): the
clause is appended only for the exact strings 'active' and 'finished'; any
other value (including invalid ones) appends no WHERE clause at all. -/
def statusFilterPred (sf : Option String) (p : Print) : Bool :=
  if sf = some "active" then passesActiveFilter p
  else if sf = some "finished" then passesFinishedFilter p
  else true

/-- Status classification of a document via its linked process, as the
Status Classifier sees it: no linked process or no stages is `unknown`. -/
def docStatus (p : Print) : String :=
  match p.process with
  | none => "unknown"
  | some stages => classifyStatus stages

/-- The RETURN projection of the two search queries. -/
def toRow (p : Print) (score : ℚ) : ResultRow :=
  { number := p.number
    title := p.title
    summary := p.summary
    documentDate := p.documentDate
    currentStage := (printLatestStage p).map Stage.stageName
    stageDate := (printLatestStage p).bind Stage.date
    topics := p.topics.dedup
    score := score }

/-- Ordering of the vector path: `ORDER BY score ASC, print.documentDate
DESC` (queries.py line 87).  The date key is dualised for DESC. -/
def rowVecLe (a b : ResultRow) : Prop :=
  lexLe ResultRow.score (fun r => OrderDual.toDual (dateKey r.documentDate)) a b

instance : DecidableRel rowVecLe := fun a b => by
  unfold rowVecLe; exact lexLeDecidable _ _ a b

instance : IsTotal ResultRow rowVecLe := lexLeIsTotal _ _

instance : IsTrans ResultRow rowVecLe := lexLeIsTrans _ _

/-- Ordering of the fulltext path: `ORDER BY score DESC` (queries.py line
148), with no tie-break at all. -/
def rowFtLe (a b : ResultRow) : Prop := b.score ≤ a.score

instance : DecidableRel rowFtLe := fun a b =>
  inferInstanceAs (Decidable (b.score ≤ a.score))

instance : IsTotal ResultRow rowFtLe := ⟨fun a b => le_total b.score a.score⟩

instance : IsTrans ResultRow rowFtLe := ⟨fun _ _ _ h1 h2 => le_trans h2 h1⟩

/-- The fulltext query parameter as submitted by `_search_prints_fulltext`
(queries.py line 153): the raw query text, passed through unchanged with no
tokenisation and no OR-joining. -/
def fulltextQueryParam (queryText : String) : String := queryText

/-- Candidate rows of the vector path before ordering: the index is asked
for `limit * 2` candidates, then the base WHERE and the optional status
WHERE are applied and rows are projected. -/
def vectorFilteredRows (store : Store) (q : String) (limit : Nat)
    (sf : Option String) : List ResultRow :=
  ((store.vectorSearch q (limit * 2)).filter
      (fun pc => baseFilter pc.1 && statusFilterPred sf pc.1)).map
    (fun pc => toRow pc.1 pc.2)

/-- The vector path of `search_prints_by_query` (queries.py lines 42-96):
filtered candidates ordered by `score ASC, documentDate DESC`, capped at
`limit`.  The executable sort is one ordering the store may return; ties
carry no further guarantee (see `orderByOutcome`). -/
def vectorPathResults (store : Store) (q : String) (limit : Nat)
    (sf : Option String) : List ResultRow :=
  (List.insertionSort rowVecLe (vectorFilteredRows store q limit sf)).take limit

/-- Candidate rows of the fulltext path before ordering. -/
def fulltextFilteredRows (store : Store) (q : String) (sf : Option String) :
    List ResultRow :=
  ((store.fulltextSearch (fulltextQueryParam q)).filter
      (fun pc => baseFilter pc.1 && statusFilterPred sf pc.1)).map
    (fun pc => toRow pc.1 pc.2)

/-- Embeds `QueryService._search_prints_fulltext` (queries.py lines 98-157):
the raw query text is submitted to the fulltext index, results are filtered,
ordered by `score DESC` only, and capped at `limit`. -/
def search_prints_fulltext (store : Store) (q : String) (limit : Nat)
    (sf : Option String) : List ResultRow :=
  (List.insertionSort rowFtLe (fulltextFilteredRows store q sf)).take limit

/-- Embeds `QueryService.search_prints_by_query` (queries.py lines 18-96):
if the embeddings service is unavailable the fulltext fallback is returned;
otherwise an embedding is generated (an exception from which propagates) and
the vector-path query is executed.  The two candidate lists are never
combined. -/
def search_prints_by_query (emb : EmbeddingsState) (store : Store)
    (q : String) (limit : Nat) (sf : Option String) :
    Except PyError (List ResultRow) :=
  if is_available emb = false then
    .ok (search_prints_fulltext store q limit sf)
  else
    match generate_embedding emb q with
    | .error e => .error e
    | .ok _ => .ok (vectorPathResults store q limit sf)

/-- Every ordering the store may return for `ORDER BY`: any permutation of
the input that is sorted under the (possibly non-antisymmetric) row order;
Cypher guarantees nothing further about ties. -/
def orderByOutcome {α : Type} (r : α → α → Prop) (input output : List α) :
    Prop :=
  input.Perm output ∧ output.Sorted r

/-- Observable outcomes of the vector-path query including the `LIMIT`:
some legal ordering of the filtered rows, truncated to `limit`. -/
def vectorQueryOutcome (store : Store) (q : String) (limit : Nat)
    (sf : Option String) (out : List ResultRow) : Prop :=
  ∃ sortedRows, orderByOutcome rowVecLe (vectorFilteredRows store q limit sf)
      sortedRows ∧ out = sortedRows.take limit


/-! ## Spec-side comparison definitions

These two definitions follow the specification's words (spec.md sections 4.1
and 4.3), not the source; they exist only to be compared against the code's
behaviour. -/

/-- Helper splitting a character stream into whitespace-separated words. -/
def splitWordsAux : List Char → List Char → List String
  | [], acc => if acc.isEmpty then [] else [String.mk acc.reverse]
  | c :: cs, acc =>
    if c = ' ' then
      if acc.isEmpty then splitWordsAux cs []
      else String.mk acc.reverse :: splitWordsAux cs []
    else splitWordsAux cs (c :: acc)

/-- Whitespace tokenisation of a query string. -/
def splitWords (q : String) : List String := splitWordsAux q.data []

/-- Joining terms with the explicit " OR " connective. -/
def joinWithOR : List String → String
  | [] => ""
  | [t] => t
  | t :: ts => t ++ " OR " ++ joinWithOR ts

/-- Specification-side lexical query construction (spec section 4.1): split
on whitespace, drop stop-short tokens (here: length at most 2), join the
remaining terms with an explicit " OR " connective; single-token queries
pass through unchanged.  Compared against the code's `fulltextQueryParam`. -/
def specFulltextQueryParam (q : String) : String :=
  match splitWords q with
  | [] => q
  | [_] => q
  | toks => joinWithOR (toks.filter (fun t => 2 < t.length))

/-- Specification-side Reciprocal Rank Fusion contribution (spec section
4.3): `1 / (k + r)` where `r` is the 1-based rank of the document key in the
ranked list, `0` if absent. -/
def rrfRankContrib (k : ℚ) (ranked : List String) (d : String) : ℚ :=
  match ranked.findIdx? (fun x => x = d) with
  | some i => 1 / (k + ((i : ℚ) + 1))
  | none => 0

/-- Specification-side fused RRF score of a document key given the lexical
and vector rank lists. -/
def specRrfScore (k : ℚ) (lex vec : List String) (d : String) : ℚ :=
  rrfRankContrib k lex d + rrfRankContrib k vec d

/-! ## Generic neighbour exploration

Embeds the query construction of `QueryService.get_node_neighbors`
(queries.py lines 619-731): a chain of string comparisons selecting the
MATCH clause, with a generic internal-id fallback for every unrecognised
node type — no node type is ever rejected. -/

/-- The node types with a dedicated lookup key. -/
def knownNodeTypes : List String :=
  ["Person", "Print", "Topic", "Process", "Club", "Committee"]

/-- MATCH clause selection of `get_node_neighbors` (queries.py lines
636-651).  Braces of the Cypher text are escaped. -/
def nodeNeighborsMatchClause (node_type : String) : String :=
  if node_type = "Person" then "MATCH (n:Person \x7bid: $nodeId\x7d)"
  else if node_type = "Print" then "MATCH (n:Print \x7bnumber: $nodeId\x7d)"
  else if node_type = "Topic" then "MATCH (n:Topic \x7bname: $nodeId\x7d)"
  else if node_type = "Process" then "MATCH (n:Process \x7bnumber: $nodeId\x7d)"
  else if node_type = "Club" then "MATCH (n:Club \x7bname: $nodeId\x7d)"
  else if node_type = "Committee" then "MATCH (n:Committee \x7bcode: $nodeId\x7d)"
  else "MATCH (n:" ++ node_type ++ ") WHERE id(n) = toInteger($nodeId)"

/-- The store queries `get_node_neighbors` issues: exactly one query, built
from the selected MATCH clause, for every node type and id — the function
validates nothing and rejects nothing before querying the store. -/
def get_node_neighbors_queries (node_type _node_id : String) : List String :=
  [nodeNeighborsMatchClause node_type]

/-! ## MCP tools calling missing QueryService methods

Embeds the attribute-lookup behaviour relevant to server.py: each tool body
fetches a method from the `query_service` singleton by name inside a
catch-all `try/except` and formats any exception into an error string. -/

/-- The methods `QueryService` actually defines (queries.py lines 15-763). -/
def queryServiceMethods : List String :=
  ["search_prints_by_query", "_search_prints_fulltext", "get_print_details",
   "get_process_details", "get_print_comments", "get_process_status",
   "find_person_by_name", "get_person_activity", "get_club_statistics",
   "get_node_neighbors", "list_clubs"]

/-- Python attribute access on the `QueryService` instance: a name that is
not a defined method raises AttributeError.  (CPython's message quotes the
class and attribute names; the exact wording is abbreviated here.) -/
def qsGetattr (name : String) : Except PyError Unit :=
  if queryServiceMethods.contains name then .ok ()
  else .error (.attributeError name)

/-- Rendering of a caught exception by `str(e)` in the tool handlers. -/
def pyErrorMsg : PyError → String
  | .attributeError n => "QueryService object has no attribute: " ++ n
  | .runtimeError m => m
  | .embeddingApiError => "embedding API error"
  | .systemExit => "SystemExit"

/-- Tool `search_active_prints_by_topic` (server.py lines 52-103): clamps
the limit, then calls `query_service.search_active_prints_by_topic` — a
method that does not exist — inside the catch-all handler. -/
def tool_search_active_prints_by_topic (_topic : String) (_limit : Nat) :
    String :=
  match qsGetattr "search_active_prints_by_topic" with
  | .error e => "Error searching prints: " ++ pyErrorMsg e
  | .ok _ => "<formatted prints>"

/-- Tool `get_similar_topics` (server.py lines 353-395): calls the
nonexistent `query_service.get_similar_topics`. -/
def tool_get_similar_topics (_topic_name : String) (_limit : Nat) : String :=
  match qsGetattr "get_similar_topics" with
  | .error e => "Error finding similar topics: " ++ pyErrorMsg e
  | .ok _ => "<formatted topics>"

/-- Tool `get_topic_statistics` (server.py lines 398-437): calls the
nonexistent `query_service.get_topic_statistics`. -/
def tool_get_topic_statistics (_topic_name : String) : String :=
  match qsGetattr "get_topic_statistics" with
  | .error e => "Error getting topic statistics: " ++ pyErrorMsg e
  | .ok _ => "<formatted statistics>"

/-- Tool `search_all` (server.py lines 530-579): calls the nonexistent
`query_service.search_all`. -/
def tool_search_all (_query : String) (_limit : Nat) : String :=
  match qsGetattr "search_all" with
  | .error e => "Error searching: " ++ pyErrorMsg e
  | .ok _ => "<formatted search results>"

/-! ## Settings and the server import sequence

Embeds config.py (`Settings`, `get_valid_api_keys`, `is_api_key_valid`) and
the module-level import sequence of server.py (lines 12-41): the pydantic
settings object only answers for its declared fields and raises
AttributeError for anything else, and `validate_api_key()` runs at import
time, before the FastMCP server and its tools are created. -/

/-- A Python value held by a settings field. -/
inductive PyVal where
  | str (v : String)
  | optStr (v : Option String)
  | nat (v : Nat)
  | rat (v : ℚ)
  deriving DecidableEq, Repr

/-- The `Settings` model (config.py lines 7-34): exactly these fields are
declared; note `API_KEYS` (plural) and no `API_KEY`. -/
structure SettingsModel where
  NEO4J_HOST : String
  NEO4J_USER : String
  NEO4J_PASSWORD : String
  OPENAI_API_KEY : Option String
  EMBEDDINGS_MODEL : String
  API_KEYS : Option String
  DEFAULT_LIMIT : Nat
  MAX_LIMIT : Nat
  VECTOR_SIMILARITY_THRESHOLD : ℚ
  TOPIC_SIMILARITY_THRESHOLD : ℚ
  deriving DecidableEq, Repr

/-- The attribute table a `Settings` instance answers for. -/
def settingsAttrs (s : SettingsModel) : List (String × PyVal) :=
  [("NEO4J_HOST", .str s.NEO4J_HOST),
   ("NEO4J_USER", .str s.NEO4J_USER),
   ("NEO4J_PASSWORD", .str s.NEO4J_PASSWORD),
   ("OPENAI_API_KEY", .optStr s.OPENAI_API_KEY),
   ("EMBEDDINGS_MODEL", .str s.EMBEDDINGS_MODEL),
   ("API_KEYS", .optStr s.API_KEYS),
   ("DEFAULT_LIMIT", .nat s.DEFAULT_LIMIT),
   ("MAX_LIMIT", .nat s.MAX_LIMIT),
   ("VECTOR_SIMILARITY_THRESHOLD", .rat s.VECTOR_SIMILARITY_THRESHOLD),
   ("TOPIC_SIMILARITY_THRESHOLD", .rat s.TOPIC_SIMILARITY_THRESHOLD)]

/-- Python attribute access on the settings object: pydantic raises
AttributeError for a name that is not a declared field. -/
def settingsGetattr (s : SettingsModel) (name : String) : Except PyError PyVal :=
  match (settingsAttrs s).lookup name with
  | some v => .ok v
  | none => .error (.attributeError name)

/-- Python truthiness of a settings value (`if not settings.API_KEY`). -/
def pyTruthy : PyVal → Bool
  | .str v => v ≠ ""
  | .optStr none => false
  | .optStr (some v) => v ≠ ""
  | .nat n => n ≠ 0
  | .rat q => q ≠ 0

/-- String view of a settings value for the equality comparison on server.py
line 26. -/
def pyValStr : PyVal → String
  | .str v => v
  | .optStr v => v.getD ""
  | .nat _ => ""
  | .rat _ => ""

/-- `Settings.get_valid_api_keys` (config.py lines 36-40). -/
def get_valid_api_keys (s : SettingsModel) : List String :=
  match s.API_KEYS with
  | none => []
  | some ks => ((ks.splitOn ",").map String.trim).filter (fun k => k ≠ "")

/-- `Settings.is_api_key_valid` (config.py lines 42-48). -/
def is_api_key_valid (s : SettingsModel) (apiKey : String) : Bool :=
  match get_valid_api_keys s with
  | [] => true
  | keys => keys.contains apiKey

/-- `validate_api_key` (server.py lines 12-31): the very first step reads
`settings.API_KEY`, a field the model does not declare — so the attribute
access raises before any of the subsequent checks can run.  `envApiKey` is
the client's API_KEY environment variable. -/
def validate_api_key (s : SettingsModel) (envApiKey : Option String) :
    Except PyError Bool :=
  match settingsGetattr s "API_KEY" with
  | .error e => .error e
  | .ok v =>
    if pyTruthy v = false then .ok true
    else
      match envApiKey with
      | none => .ok false
      | some k => .ok (k = pyValStr v)

/-- The tools `@mcp.tool()` would register once the server module finishes
importing (server.py lines 52-579). -/
def serverToolNames : List String :=
  ["search_active_prints_by_topic", "get_print_details", "get_process_status",
   "find_mp_by_name", "get_mp_activity", "get_similar_topics",
   "get_topic_statistics", "get_club_statistics", "list_clubs", "search_all"]

/-- The module-level import sequence of server.py (lines 34-41): run
`validate_api_key()` (an exception escapes the import), `sys.exit(1)` on a
False result, and only then create the FastMCP server with its tools.
Returns the registered tool names on success. -/
def importServer (s : SettingsModel) (envApiKey : Option String) :
    Except PyError (List String) :=
  match validate_api_key s envApiKey with
  | .error e => .error e
  | .ok true => .ok serverToolNames
  | .ok false => .error .systemExit

/-! ## Concrete fixtures used by the witnesses and counterexamples -/

/-- A well-formed print passing the base WHERE clause: it has a summary and
is the initiating print of its own process-print list. -/
def mkPrint (num : String) (date : Option Nat) (proc : Option (List Stage)) :
    Print :=
  { number := num, title := "t" ++ num, summary := some ("s" ++ num),
    documentDate := date, processPrint := [num], topics := [], process := proc }

def embOk : EmbeddingsState := ⟨true, false⟩

def embOff : EmbeddingsState := ⟨false, false⟩

def embFailing : EmbeddingsState := ⟨true, true⟩

/-- Document found by both indexes at rank 1 (the spec's D1 scenario). -/
def prD1 : Print := mkPrint "D1" (some 100) none

/-- Document found only by the lexical index (the spec's D2 scenario). -/
def prD2 : Print := mkPrint "D2" (some 90) none

/-- Store for the RRF scenario: the vector index ranks D1 first (similarity
95 on an arbitrary scale); the fulltext index ranks D1 first (score 32) and
D2 second (score 31). -/
def rrfStore : Store :=
  { vectorSearch := fun _ _ => [(prD1, 95)]
    fulltextSearch := fun _ => [(prD1, 32), (prD2, 31)] }

/-- The claim C3 scenario: an earlier-dated stage with a larger ordinal and
a later-dated PUBLICATION stage. -/
def refStage : Stage := ⟨"committee referral", some 10, some 9, some "OTHER"⟩

def pubStage : Stage := ⟨"publication", some 20, some 2, some "PUBLICATION"⟩

def c3DemoStages : List Stage := [refStage, pubStage]

/-- The sort key actually used by the vector path's `ORDER BY`: the score,
then the document date (no document-key component at all). -/
def vecSortKey (r : ResultRow) : ℚ × WithTop Nat :=
  (r.score, dateKey r.documentDate)

/-- Two prints that tie on both score and date, differing only in key. -/
def prT1 : Print := mkPrint "1" (some 100) none

def prT2 : Print := mkPrint "2" (some 100) none

/-- Store whose vector index returns the two tied prints. -/
def tieStore : Store :=
  { vectorSearch := fun _ _ => [(prT1, 5), (prT2, 5)]
    fulltextSearch := fun _ => [] }

/-- A print whose process link is absent: its classification is `unknown`,
yet it passes the 'active' WHERE clause. -/
def prU : Print := mkPrint "U" (some 10) none

def unknownStore : Store :=
  { vectorSearch := fun _ _ => [(prU, 5)]
    fulltextSearch := fun _ => [] }

/-- A finished print (latest stage PUBLICATION). -/
def prFin : Print := mkPrint "FIN" (some 10) (some [pubStage])

/-- An active print (latest stage non-terminal). -/
def prAct : Print := mkPrint "ACT" (some 20) (some [refStage])

def truncStore : Store :=
  { vectorSearch := fun _ _ => [(prFin, 1), (prAct, 2)]
    fulltextSearch := fun _ => [] }

def prS1 : Print := mkPrint "S1" (some 50) none

def prS2 : Print := mkPrint "S2" (some 60) none

/-- Store on which both indexes score S1 higher (more relevant) than S2. -/
def simStore : Store :=
  { vectorSearch := fun _ _ => [(prS1, 9), (prS2, 2)]
    fulltextSearch := fun _ => [(prS1, 9), (prS2, 2)] }

def prV : Print := mkPrint "V" (some 30) none

def store9 : Store :=
  { vectorSearch := fun _ _ => [(prV, 3)]
    fulltextSearch := fun _ => [(prV, 4)] }

/-! ## Helper lemmas about the orderings and the classifier -/

section LexRelFacts

variable {α : Type} {β γ : Type*} [LinearOrder β] [LinearOrder γ]

theorem lexLe_refl (f : α → β) (g : α → γ) (a : α) : lexLe f g a a :=
  Or.inr ⟨rfl, le_refl _⟩

theorem lexLe_antisymm_keys (f : α → β) (g : α → γ) (a b : α)
    (hab : lexLe f g a b) (hba : lexLe f g b a) : f a = f b ∧ g a = g b := by
  rcases hab with h1 | ⟨h1, h1'⟩
  · rcases hba with h2 | ⟨h2, _⟩
    · exact absurd (h1.trans h2) (lt_irrefl _)
    · exact absurd (h2 ▸ h1) (lt_irrefl _)
  · rcases hba with h2 | ⟨h2, h2'⟩
    · exact absurd (h1 ▸ h2) (lt_irrefl _)
    · exact ⟨h1, le_antisymm h1' h2'⟩

end LexRelFacts

theorem stageLe_iff_atLeastAsRecent (s t : Stage) :
    stageLe s t ↔ stageAtLeastAsRecent s t := Iff.rfl

theorem latestStage_mem {l : List Stage} {s : Stage}
    (h : latestStage l = some s) : s ∈ l := by
  have hmem : s ∈ sortStages l := by
    cases hs : sortStages l with
    | nil => simp [latestStage, hs] at h
    | cons a t =>
      simp only [latestStage, hs, List.head?] at h
      have ha : a = s := by injection h
      exact ha ▸ List.mem_cons_self a t
  exact (List.perm_insertionSort stageLe l).subset hmem

theorem latestStage_isMax {l : List Stage} {s : Stage}
    (h : latestStage l = some s) : ∀ t ∈ l, stageLe s t := by
  intro t ht
  have htmem : t ∈ sortStages l := (List.perm_insertionSort stageLe l).symm.subset ht
  have hsorted : (sortStages l).Sorted stageLe := List.sorted_insertionSort stageLe l
  cases hs : sortStages l with
  | nil => rw [hs] at htmem; exact absurd htmem (List.not_mem_nil t)
  | cons a rest =>
    simp only [latestStage, hs, List.head?] at h
    rw [hs] at htmem hsorted
    have ha : a = s := by injection h
    subst ha
    rcases List.mem_cons.mp htmem with rfl | hrest
    · exact lexLe_refl _ _ t
    · exact List.rel_of_sorted_cons hsorted t hrest

theorem latestStage_isSome {l : List Stage} (h : l ≠ []) :
    ∃ s, latestStage l = some s := by
  cases hs : sortStages l with
  | nil =>
    have hperm := (List.perm_insertionSort stageLe l).length_eq
    simp only [sortStages] at hs
    rw [hs] at hperm
    exact absurd (List.length_eq_zero.mp hperm.symm) h
  | cons a t => exact ⟨a, by simp [latestStage, hs]⟩

/-- The executable pipeline realises one of the legal outcomes. -/
theorem vectorPathResults_isOutcome (store : Store) (q : String)
    (limit : Nat) (sf : Option String) :
    vectorQueryOutcome store q limit sf (vectorPathResults store q limit sf) :=
  ⟨List.insertionSort rowVecLe (vectorFilteredRows store q limit sf),
    ⟨(List.perm_insertionSort rowVecLe _).symm,
      List.sorted_insertionSort rowVecLe _⟩, rfl⟩

/-! ## C1 — the fused-RRF-score claim against `search_prints_by_query` -/

/-- C1: the claim states that `search_prints_by_query` fuses the lexical and
vector candidate lists, scoring each document by summed `1 / (k + r)` RRF
contributions with default `k = 60`.  The code does nothing of the kind: on
a store where D1 is rank 1 in both lists and D2 is rank 2 lexically, the
search returns only the vector-path candidates carrying the raw store
similarity score (95), not the RRF score `2/61`, and D2 — retrieved by the
lexical index — is absent from the output entirely.  This supports the
code_bug verdict for C1. -/
theorem c1_search_is_not_rrf_fused :
    search_prints_by_query embOk rrfStore "energia odnawialna" 10 none =
      .ok [toRow prD1 95] ∧
    (toRow prD1 95).score = 95 ∧
    specRrfScore 60 ["D1", "D2"] ["D1"] "D1" = 2 / 61 ∧
    (95 : ℚ) ≠ 2 / 61 ∧
    specRrfScore 60 ["D1", "D2"] ["D1"] "D2" = 1 / 62 ∧
    (vectorPathResults rrfStore "energia odnawialna" 10 none).map
        ResultRow.number = ["D1"] ∧
    (fulltextFilteredRows rrfStore "energia odnawialna" none).map
        ResultRow.number = ["D1", "D2"] := by
  refine ⟨rfl, rfl, ?_, by norm_num, ?_, rfl, rfl⟩
  · rw [show specRrfScore 60 ["D1", "D2"] ["D1"] "D1" =
        1 / (60 + ((0 : ℚ) + 1)) + 1 / (60 + ((0 : ℚ) + 1)) from rfl]
    norm_num
  · rw [show specRrfScore 60 ["D1", "D2"] ["D1"] "D2" =
        1 / (60 + (((1 : ℕ) : ℚ) + 1)) + 0 from rfl]
    norm_num

/-! ## C2 — the OR-tokenisation claim against `_search_prints_fulltext` -/

/-- C2: the claim states that multi-word queries are split on whitespace,
stop-short tokens dropped, and the rest OR-joined before hitting the
fulltext index.  The code submits the raw query text unchanged for every
query (queries.py line 153), so the two-word query documented in the repo's
own investigation is sent as a phrase, not as a disjunction.  This supports
the code_bug verdict for C2. -/
theorem c2_fulltext_query_not_tokenized :
    fulltextQueryParam "związki partnerskie" = "związki partnerskie" ∧
    specFulltextQueryParam "związki partnerskie" =
      "związki OR partnerskie" ∧
    fulltextQueryParam "związki partnerskie" ≠
      specFulltextQueryParam "związki partnerskie" ∧
    (∀ q, fulltextQueryParam q = q) := by
  refine ⟨rfl, ?_, ?_, fun _ => rfl⟩
  · decide
  · decide

/-! ## C3 — the status classifier -/

/-- C3: with no recorded stages the classification is `unknown`; otherwise
the stage selected by sorting on (date descending, ordinal descending) is a
member of the stage set that is at least as recent as every other stage, the
process is `finished` exactly when that stage's type is in the terminal set
and `active` otherwise, and `get_process_status` reports this classification
together with the selected stage; in the claim's concrete scenario the
later-dated PUBLICATION stage wins over the earlier-dated larger-ordinal
stage and the process is `finished`. -/
theorem c3_status_classifier (stages : List Stage) :
    (stages = [] → classifyStatus stages = "unknown") ∧
    (stages ≠ [] → ∃ s, latestStage stages = some s) ∧
    (∀ s, latestStage stages = some s →
      s ∈ stages ∧ (∀ t ∈ stages, stageAtLeastAsRecent s t) ∧
      classifyStatus stages =
        (if stageIsTerminal s then "finished" else "active")) ∧
    (∀ (db : List (String × List Stage)) (pn : String)
        (st2 : List Stage), db.lookup pn = some st2 →
      get_process_status db pn =
        some { processNumber := pn
               status := classifyStatus st2
               currentStage := (latestStage st2).map Stage.stageName
               stageDate := (latestStage st2).bind Stage.date
               allStages := sortStages st2 }) ∧
    (latestStage c3DemoStages = some pubStage ∧
      classifyStatus c3DemoStages = "finished") := by
  refine ⟨?_, ?_, ?_, ?_, by decide⟩
  · intro h; subst h; rfl
  · exact latestStage_isSome
  · intro s h
    refine ⟨latestStage_mem h,
      fun t ht => (stageLe_iff_atLeastAsRecent s t).mp
        (latestStage_isMax h t ht), ?_⟩
    unfold classifyStatus
    rw [h]
  · intro db pn st2 h
    unfold get_process_status
    rw [h]

/-- Witness for C3: the theorem applied at the empty stage list and at the
concrete two-stage scenario, discharging each hypothesis. -/
theorem c3_status_classifier_witness :
    classifyStatus [] = "unknown" ∧
    (pubStage ∈ c3DemoStages ∧
      (∀ t ∈ c3DemoStages, stageAtLeastAsRecent pubStage t) ∧
      classifyStatus c3DemoStages =
        (if stageIsTerminal pubStage then "finished" else "active")) :=
  ⟨(c3_status_classifier []).1 rfl,
    (c3_status_classifier c3DemoStages).2.2.1 pubStage (by decide)⟩

/-! ## C4 — soft failure of the embeddings dependency -/

/-- Counterexample for C4: the claim states that a raising embed call is
never propagated to the caller of the search; but with an initialised client
whose API call fails, `generate_embedding` re-raises (embeddings.py line 44)
and `search_prints_by_query` has no handler, so the exception escapes the
search operation. -/
theorem c4_embed_error_escapes_search :
    search_prints_by_query embFailing rrfStore "zdrowie" 10 none =
      .error PyError.embeddingApiError := rfl

/-- C4 (amended): the degradation to lexical-only results happens exactly
when the embeddings service reports itself unavailable (no client); when the
client exists but the embed call raises, the error propagates out of the
search operation instead of degrading. -/
theorem c4_availability_gate (emb : EmbeddingsState) (store : Store)
    (q : String) (limit : Nat) (sf : Option String) :
    (is_available emb = false →
      search_prints_by_query emb store q limit sf =
        .ok (search_prints_fulltext store q limit sf)) ∧
    (is_available emb = true → emb.apiCallFails = true →
      search_prints_by_query emb store q limit sf =
        .error PyError.embeddingApiError) := by
  constructor
  · intro h
    simp [search_prints_by_query, h]
  · intro h1 h2
    have hc : emb.clientInitialized = true := h1
    simp [search_prints_by_query, is_available, hc, generate_embedding, h2]

/-- Witness for C4 (amended): both branches at concrete inputs. -/
theorem c4_availability_gate_witness :
    search_prints_by_query embOff rrfStore "podatki" 5 none =
      .ok (search_prints_fulltext rrfStore "podatki" 5 none) ∧
    search_prints_by_query embFailing rrfStore "podatki" 5 none =
      .error PyError.embeddingApiError :=
  ⟨(c4_availability_gate embOff rrfStore "podatki" 5 none).1 rfl,
    (c4_availability_gate embFailing rrfStore "podatki" 5 none).2 rfl rfl⟩

/-! ## C5 — tools wired to nonexistent QueryService methods -/

/-- C5: the four tools `search_active_prints_by_topic`, `get_similar_topics`,
`get_topic_statistics` and `search_all` each invoke a `QueryService` method
of the same name that `QueryService` does not define, so for every input the
attribute access raises AttributeError, the catch-all handler converts it,
and the tool returns an error string — never a search result. -/
theorem c5_tools_always_error (topic tn q : String) (limit limit2 limit3 : Nat) :
    tool_search_active_prints_by_topic topic limit =
      "Error searching prints: " ++
        pyErrorMsg (.attributeError "search_active_prints_by_topic") ∧
    tool_get_similar_topics tn limit2 =
      "Error finding similar topics: " ++
        pyErrorMsg (.attributeError "get_similar_topics") ∧
    tool_get_topic_statistics tn =
      "Error getting topic statistics: " ++
        pyErrorMsg (.attributeError "get_topic_statistics") ∧
    tool_search_all q limit3 =
      "Error searching: " ++ pyErrorMsg (.attributeError "search_all") ∧
    queryServiceMethods.contains "search_active_prints_by_topic" = false ∧
    queryServiceMethods.contains "get_similar_topics" = false ∧
    queryServiceMethods.contains "get_topic_statistics" = false ∧
    queryServiceMethods.contains "search_all" = false :=
  ⟨rfl, rfl, rfl, rfl, by decide, by decide, by decide, by decide⟩

/-! ## C10 — import-time AttributeError in server.py -/

/-- C10: `validate_api_key` reads `settings.API_KEY`, a field the `Settings`
model does not declare (it declares `API_KEYS`), so the attribute access
raises AttributeError for every possible configuration; since server.py
calls `validate_api_key()` at module scope before creating the FastMCP
server, importing the module always fails with that AttributeError, no tool
is ever registered, and the outcome is independent of the configuration and
the client environment — in particular the multi-key helpers
`get_valid_api_keys` and `is_api_key_valid` can never influence it. -/
theorem c10_import_always_fails (s s2 : SettingsModel)
    (env env2 : Option String) :
    settingsGetattr s "API_KEY" = .error (.attributeError "API_KEY") ∧
    validate_api_key s env = .error (.attributeError "API_KEY") ∧
    importServer s env = .error (.attributeError "API_KEY") ∧
    importServer s env = importServer s2 env2 :=
  ⟨rfl, rfl, rfl, rfl⟩

/-! ## C6 — determinism of the result ordering -/

/-- Counterexample for C6: the claim says equal-score results are totally
ordered by date descending then document key ascending, making repeated
executions deterministic.  But the `ORDER BY score ASC, documentDate DESC`
clause has no key tie-break: for two results tying on score and date, both
relative orders are legal outcomes of the query — including the one with
key "2" before key "1", although "1" < "2" —, so the ordering is not a
deterministic function of the store contents. -/
theorem c6_ordering_not_deterministic :
    vectorQueryOutcome tieStore "ustawa" 2 none
      [toRow prT1 5, toRow prT2 5] ∧
    vectorQueryOutcome tieStore "ustawa" 2 none
      [toRow prT2 5, toRow prT1 5] ∧
    [toRow prT1 5, toRow prT2 5] ≠ [toRow prT2 5, toRow prT1 5] ∧
    (toRow prT1 5).score = (toRow prT2 5).score ∧
    (toRow prT1 5).documentDate = (toRow prT2 5).documentDate ∧
    (toRow prT1 5).number = "1" ∧ (toRow prT2 5).number = "2" := by
  refine ⟨⟨[toRow prT1 5, toRow prT2 5], ⟨by decide, by decide⟩, rfl⟩,
    ⟨[toRow prT2 5, toRow prT1 5], ⟨by decide, by decide⟩, rfl⟩,
    by decide, rfl, rfl, rfl, rfl⟩

/-- C6 (amended): the ordering is deterministic exactly up to the sort key
the code uses (score ascending, then document date descending): whenever the
results have pairwise-distinct (score, date) keys, any two legal outcomes of
the query coincide; the claimed document-key tie-break does not exist, so
equal-key results may come back in either order (see the counterexample). -/
theorem c6_deterministic_on_distinct_keys
    (rows out1 out2 : List ResultRow)
    (hdist : rows.Pairwise (fun a b => vecSortKey a ≠ vecSortKey b))
    (h1 : orderByOutcome rowVecLe rows out1)
    (h2 : orderByOutcome rowVecLe rows out2) :
    out1 = out2 := by
  have hsymm : ∀ {a b : ResultRow},
      vecSortKey a ≠ vecSortKey b → vecSortKey b ≠ vecSortKey a :=
    fun h e => h e.symm
  have hkeys : ∀ {a b : ResultRow}, rowVecLe a b → rowVecLe b a →
      vecSortKey a = vecSortKey b := by
    intro a b hab hba
    obtain ⟨h1', h2'⟩ := lexLe_antisymm_keys _ _ a b hab hba
    have hd : dateKey a.documentDate = dateKey b.documentDate :=
      congrArg OrderDual.ofDual h2'
    exact Prod.ext h1' hd
  haveI : IsAntisymm ResultRow
      (fun a b => rowVecLe a b ∧ vecSortKey a ≠ vecSortKey b) :=
    ⟨fun a b ha hb => absurd (hkeys ha.1 hb.1) ha.2⟩
  have hs1 : out1.Sorted (fun a b => rowVecLe a b ∧ vecSortKey a ≠ vecSortKey b) :=
    h1.2.and ((h1.1.pairwise_iff hsymm).mp hdist)
  have hs2 : out2.Sorted (fun a b => rowVecLe a b ∧ vecSortKey a ≠ vecSortKey b) :=
    h2.2.and ((h2.1.pairwise_iff hsymm).mp hdist)
  exact List.eq_of_perm_of_sorted (h1.1.symm.trans h2.1) hs1 hs2

/-- Witness for C6 (amended): two distinct-key rows, the theorem applied at
a concrete legal outcome on each side. -/
theorem c6_deterministic_on_distinct_keys_witness :
    [toRow prT1 5, toRow prT2 7] = [toRow prT1 5, toRow prT2 7] :=
  c6_deterministic_on_distinct_keys
    [toRow prT2 7, toRow prT1 5]
    [toRow prT1 5, toRow prT2 7] [toRow prT1 5, toRow prT2 7]
    (by decide) ⟨by decide, by decide⟩ ⟨by decide, by decide⟩

/-! ## C7 — status-filtered search as subset / partition -/

/-- Counterexample for C7: with `limit = 1` the active-filtered search
returns a key ("ACT") that the unfiltered search does not return, so the
subset relation fails; and a document with no linked process (classification
`unknown`) passes the 'active' filter, so the union of the active and
finished key sets is the whole unfiltered key set, not the unfiltered set
restricted to non-`unknown` documents (which here is empty). -/
theorem c7_filter_sets_counterexample :
    (vectorPathResults truncStore "q" 1 (some "active")).map
        ResultRow.number = ["ACT"] ∧
    (vectorPathResults truncStore "q" 1 none).map ResultRow.number = ["FIN"] ∧
    "ACT" ∉ (vectorPathResults truncStore "q" 1 none).map ResultRow.number ∧
    (vectorPathResults unknownStore "q" 5 (some "active")).map
        ResultRow.number = ["U"] ∧
    (vectorPathResults unknownStore "q" 5 (some "finished")).map
        ResultRow.number = [] ∧
    (vectorPathResults unknownStore "q" 5 none).map ResultRow.number = ["U"] ∧
    docStatus prU = "unknown" :=
  ⟨rfl, rfl, by decide, rfl, rfl, rfl, rfl⟩

/-- The 'active' and 'finished' WHERE clauses are complementary on every
print: a print passes exactly one of them. -/
theorem passesActive_eq_not_finished (p : Print) :
    passesActiveFilter p = !passesFinishedFilter p := by
  cases hp : p.process with
  | none => simp [passesActiveFilter, passesFinishedFilter, hp]
  | some st =>
    cases hl : latestStage st with
    | none => simp [passesActiveFilter, passesFinishedFilter, hp, hl]
    | some s =>
      cases ht : s.type with
      | none => simp [passesActiveFilter, passesFinishedFilter, hp, hl, ht]
      | some t => simp [passesActiveFilter, passesFinishedFilter, hp, hl, ht]

/-- Any status-filtered candidate row list is a sublist of the unfiltered
one (the filters only strengthen the WHERE clause). -/
theorem vectorFilteredRows_sublist (store : Store) (q : String) (limit : Nat)
    (sf : Option String) :
    List.Sublist (vectorFilteredRows store q limit sf)
      (vectorFilteredRows store q limit none) := by
  unfold vectorFilteredRows
  refine List.Sublist.map _ (List.monotone_filter_right _ ?_)
  intro pc hpc
  have hb : baseFilter pc.1 = true := (Bool.and_eq_true _ _ ▸ hpc).1
  simp [statusFilterPred, hb]

/-- Membership of a key in the final (post-LIMIT) result set when the limit
does not truncate: exactly the candidates passing the WHERE clauses. -/
theorem mem_keys_vectorPath (store : Store) (q : String) (limit : Nat)
    (sf : Option String)
    (h : (vectorFilteredRows store q limit sf).length ≤ limit) (k : String) :
    k ∈ (vectorPathResults store q limit sf).map ResultRow.number ↔
      ∃ pc, pc ∈ store.vectorSearch q (limit * 2) ∧
        (baseFilter pc.1 && statusFilterPred sf pc.1) = true ∧
        pc.1.number = k := by
  have hlen : (List.insertionSort rowVecLe
      (vectorFilteredRows store q limit sf)).length ≤ limit := by
    rw [(List.perm_insertionSort rowVecLe _).length_eq]; exact h
  unfold vectorPathResults
  rw [List.take_of_length_le hlen]
  have hperm : List.Perm
      ((List.insertionSort rowVecLe
        (vectorFilteredRows store q limit sf)).map ResultRow.number)
      ((vectorFilteredRows store q limit sf).map ResultRow.number) :=
    (List.perm_insertionSort rowVecLe _).map _
  rw [hperm.mem_iff]
  unfold vectorFilteredRows
  simp only [List.mem_map, List.mem_filter, toRow]
  constructor
  · rintro ⟨r, ⟨pc, ⟨hm, hf⟩, rfl⟩, rfl⟩
    exact ⟨pc, hm, hf, rfl⟩
  · rintro ⟨pc, hm, hf, rfl⟩
    exact ⟨_, ⟨pc, ⟨hm, hf⟩, rfl⟩, rfl⟩

/-- C7 (amended): when the limit does not truncate the unfiltered candidate
set, the active- and finished-filtered key sets are subsets of the
unfiltered key set, and their union is the entire unfiltered key set — not
the unfiltered set restricted to non-`unknown` documents, because documents
with no process or no stages (classified `unknown`) pass the 'active'
clause. -/
theorem c7_status_filter_partition (store : Store) (q : String) (limit : Nat)
    (h : (vectorFilteredRows store q limit none).length ≤ limit) :
    (∀ k, k ∈ (vectorPathResults store q limit (some "active")).map
        ResultRow.number →
      k ∈ (vectorPathResults store q limit none).map ResultRow.number) ∧
    (∀ k, k ∈ (vectorPathResults store q limit (some "finished")).map
        ResultRow.number →
      k ∈ (vectorPathResults store q limit none).map ResultRow.number) ∧
    (∀ k, k ∈ (vectorPathResults store q limit none).map ResultRow.number ↔
      (k ∈ (vectorPathResults store q limit (some "active")).map
          ResultRow.number ∨
       k ∈ (vectorPathResults store q limit (some "finished")).map
          ResultRow.number)) := by
  have hA : (vectorFilteredRows store q limit (some "active")).length ≤ limit :=
    le_trans (vectorFilteredRows_sublist store q limit _).length_le h
  have hF : (vectorFilteredRows store q limit (some "finished")).length ≤ limit :=
    le_trans (vectorFilteredRows_sublist store q limit _).length_le h
  have hactive : ∀ p : Print, statusFilterPred (some "active") p =
      passesActiveFilter p := fun _ => rfl
  have hfin : ∀ p : Print, statusFilterPred (some "finished") p =
      passesFinishedFilter p := fun _ => rfl
  have hnone : ∀ p : Print, statusFilterPred none p = true := fun _ => rfl
  refine ⟨?_, ?_, ?_⟩
  · intro k hk
    rw [mem_keys_vectorPath store q limit _ hA k] at hk
    rw [mem_keys_vectorPath store q limit _ h k]
    obtain ⟨pc, hm, hf, hkk⟩ := hk
    exact ⟨pc, hm, by
      rw [hnone]
      simpa using (Bool.and_eq_true _ _ ▸ hf).1, hkk⟩
  · intro k hk
    rw [mem_keys_vectorPath store q limit _ hF k] at hk
    rw [mem_keys_vectorPath store q limit _ h k]
    obtain ⟨pc, hm, hf, hkk⟩ := hk
    exact ⟨pc, hm, by
      rw [hnone]
      simpa using (Bool.and_eq_true _ _ ▸ hf).1, hkk⟩
  · intro k
    rw [mem_keys_vectorPath store q limit _ h k,
      mem_keys_vectorPath store q limit _ hA k,
      mem_keys_vectorPath store q limit _ hF k]
    constructor
    · rintro ⟨pc, hm, hf, hkk⟩
      have hb : baseFilter pc.1 = true := by
        rw [hnone] at hf
        simpa using (Bool.and_eq_true _ _ ▸ hf).1
      cases hfin2 : passesFinishedFilter pc.1 with
      | true =>
        exact Or.inr ⟨pc, hm, by rw [hfin]; simp [hb, hfin2], hkk⟩
      | false =>
        refine Or.inl ⟨pc, hm, ?_, hkk⟩
        rw [hactive, passesActive_eq_not_finished, hfin2]
        simp [hb]
    · rintro (⟨pc, hm, hf, hkk⟩ | ⟨pc, hm, hf, hkk⟩) <;>
      · refine ⟨pc, hm, ?_, hkk⟩
        rw [hnone]
        simpa using (Bool.and_eq_true _ _ ▸ hf).1

/-- Witness for C7 (amended): the partition applied at the store whose only
candidate has no process, with a non-truncating limit. -/
theorem c7_status_filter_partition_witness :
    "U" ∈ (vectorPathResults unknownStore "edukacja" 5 none).map
        ResultRow.number ↔
      ("U" ∈ (vectorPathResults unknownStore "edukacja" 5 (some "active")).map
          ResultRow.number ∨
       "U" ∈ (vectorPathResults unknownStore "edukacja" 5 (some "finished")).map
          ResultRow.number) :=
  (c7_status_filter_partition unknownStore "edukacja" 5 (by decide)).2.2 "U"

/-! ## C8 — best-first ordering and the limit cap -/

/-- Counterexample for C8: the vector path sorts by `score ASC` although the
store's vector score is a similarity (higher = more relevant), so the
top-ranked returned result is the LEAST relevant of the candidates — while
the fulltext path sorts the very same scores descending.  The directions
are not normalised and the vector path is not best-first. -/
theorem c8_vector_path_worst_first :
    vectorPathResults simStore "klimat" 2 none =
      [toRow prS2 2, toRow prS1 9] ∧
    (toRow prS2 2).score < (toRow prS1 9).score ∧
    search_prints_fulltext simStore "klimat" 2 none =
      [toRow prS1 9, toRow prS2 2] :=
  ⟨rfl, by norm_num [toRow], rfl⟩

/-- C8 (amended): both paths cap the result size at the limit; the fulltext
path is ordered by descending store score (best-first), but the vector path
is ordered by ascending store similarity score (then date descending), so
its top-ranked result is the least similar of the returned candidates. -/
theorem c8_ordering_and_cap (store : Store) (q : String) (limit : Nat)
    (sf : Option String) :
    List.Sorted rowFtLe (search_prints_fulltext store q limit sf) ∧
    (search_prints_fulltext store q limit sf).length ≤ limit ∧
    List.Sorted rowVecLe (vectorPathResults store q limit sf) ∧
    (vectorPathResults store q limit sf).length ≤ limit := by
  refine ⟨?_, ?_, ?_, ?_⟩
  · exact List.Pairwise.sublist (List.take_sublist _ _)
      (List.sorted_insertionSort rowFtLe _)
  · exact List.length_take_le _ _
  · exact List.Pairwise.sublist (List.take_sublist _ _)
      (List.sorted_insertionSort rowVecLe _)
  · exact List.length_take_le _ _

/-! ## C9 — malformed-input handling -/

/-- Counterexample for C9: an invalid status-filter value, an empty query
string and an unrecognised node type are all accepted: the search executes
normally against the store (returning ordinary results, not a descriptive
rejection), and the neighbour explorer builds a generic fallback MATCH
clause and issues it — no rejection, no absence of store queries. -/
theorem c9_no_rejection_counterexample :
    search_prints_by_query embOk store9 "" 5 (some "bogus") =
      .ok [toRow prV 3] ∧
    search_prints_by_query embOff store9 "" 5 none = .ok [toRow prV 4] ∧
    nodeNeighborsMatchClause "Bogus" =
      "MATCH (n:Bogus) WHERE id(n) = toInteger($nodeId)" ∧
    get_node_neighbors_queries "Bogus" "123" =
      ["MATCH (n:Bogus) WHERE id(n) = toInteger($nodeId)"] ∧
    get_node_neighbors_queries "Bogus" "123" ≠ [] :=
  ⟨rfl, rfl, rfl, rfl, by decide⟩

/-- C9 (amended): no input validation occurs anywhere on these paths — an
invalid status-filter value behaves exactly like no filter, an unrecognised
node type gets the generic internal-id MATCH clause, the neighbour explorer
always issues exactly one store query, and the empty query string is
submitted to the store and produces an ordinary (non-error) result whenever
the embeddings call does not itself fail. -/
theorem c9_no_input_validation (emb : EmbeddingsState) (store : Store)
    (q : String) (limit : Nat) (s : String)
    (hs1 : s ≠ "active") (hs2 : s ≠ "finished") :
    search_prints_by_query emb store q limit (some s) =
      search_prints_by_query emb store q limit none ∧
    (∀ nt, nt ∉ knownNodeTypes →
      nodeNeighborsMatchClause nt =
        "MATCH (n:" ++ nt ++ ") WHERE id(n) = toInteger($nodeId)") ∧
    (∀ nt nid, (get_node_neighbors_queries nt nid).length = 1) ∧
    (emb.apiCallFails = false →
      ∃ rows, search_prints_by_query emb store "" limit (some s) =
        .ok rows) := by
  have hpred : statusFilterPred (some s) = statusFilterPred none := by
    funext p
    unfold statusFilterPred
    rw [if_neg (fun hh => hs1 (Option.some.inj hh)),
      if_neg (fun hh => hs2 (Option.some.inj hh))]
    rfl
  refine ⟨?_, ?_, fun _ _ => rfl, ?_⟩
  · simp only [search_prints_by_query, vectorPathResults, vectorFilteredRows,
      search_prints_fulltext, fulltextFilteredRows, hpred]
  · intro nt hn
    simp only [knownNodeTypes, List.mem_cons, List.not_mem_nil, or_false,
      not_or] at hn
    obtain ⟨h1, h2, h3, h4, h5, h6⟩ := hn
    simp [nodeNeighborsMatchClause, h1, h2, h3, h4, h5, h6]
  · intro hf
    cases hci : emb.clientInitialized with
    | false =>
      exact ⟨search_prints_fulltext store "" limit (some s), by
        simp [search_prints_by_query, is_available, hci]⟩
    | true =>
      exact ⟨vectorPathResults store "" limit (some s), by
        simp [search_prints_by_query, is_available, hci,
          generate_embedding, hf]⟩

/-- Witness for C9 (amended): all four parts at concrete inputs. -/
theorem c9_no_input_validation_witness :
    search_prints_by_query embOk store9 "x" 3 (some "bogus") =
      search_prints_by_query embOk store9 "x" 3 none ∧
    nodeNeighborsMatchClause "Unknown" =
      "MATCH (n:Unknown) WHERE id(n) = toInteger($nodeId)" ∧
    (get_node_neighbors_queries "Unknown" "7").length = 1 ∧
    (∃ rows, search_prints_by_query embOk store9 "" 3 (some "bogus") =
      .ok rows) :=
  have h := c9_no_input_validation embOk store9 "x" 3 "bogus"
    (by decide) (by decide)
  ⟨h.1, h.2.1 "Unknown" (by decide), h.2.2.1 "Unknown" "7", h.2.2.2 rfl⟩

end Sejmofil
